import Mathlib

/-
Formal model of the resolution pipeline implemented in
src/Scripts/get_acc_uniprot_pairs.py.  Pure Python string operations are
modelled by structurally recursive Lean functions over the character list
of a String; the requests library is modelled by a deterministic Service
oracle; a Python exception escaping a function is modelled with Except.
-/

/-- Result of one HTTP GET performed by the requests library: either a raised
transport-level exception (timeout, connection refused, ...) or a response
body text.  A body is returned for any HTTP status code, because the script
never inspects the status. -/
inductive TransportResult where
  | exc : TransportResult
  | body : String → TransportResult

/-- The external lookup service as a deterministic oracle mapping the queried
key to the transport result of the GET request. -/
abbrev Service := String → TransportResult

/-- Python exceptions that can escape the modelled code paths: transport is
an exception raised by requests.get (not an IndexError, hence not caught in
make_request); attributeError models calling group(1) on the None returned
by a failed re.search in get_info; valueError models constructing a
ThreadPoolExecutor with max_workers equal to zero in spawn_threads. -/
inductive PyExc where
  | transport : PyExc
  | attributeError : PyExc
  | valueError : PyExc
deriving DecidableEq

/-- Python str.split with a single-character separator, on a character list:
keeps empty fields and always returns at least one (possibly empty) field. -/
def splitChar (c : Char) : List Char → List (List Char)
  | [] => [[]]
  | a :: as =>
    let r := splitChar c as
    if a = c then [] :: r
    else
      match r with
      | [] => [[a]]
      | h :: t => (a :: h) :: t

/-- Python str.split(sep) for a single-character sep, on String. -/
def pySplit (s : String) (c : Char) : List String :=
  (splitChar c s.data).map (fun l => String.mk l)

/-- The whitespace characters removed by Python str.strip(). -/
def isPyWs (c : Char) : Bool :=
  c = ' ' || c = '\t' || c = '\n' || c = '\r' || c = '\x0b' || c = '\x0c'

/-- Python str.strip(): remove leading and trailing whitespace. -/
def pyStrip (s : String) : String :=
  String.mk (((s.data.dropWhile isPyWs).reverse.dropWhile isPyWs).reverse)

/-- Model of make_request (source lines 113-145): queries the service with
the key; on a body, splits it on newlines, takes line 1, splits that line on
tabs, takes field 0 as the Uniprot id and the first space-separated token of
field 1 as the gene name, normalising an all-whitespace token to the
sentinel "None".  An IndexError (missing line 1 or missing field 1) is
caught and yields the sentinel pair; an exception raised by requests.get is
not an IndexError and therefore propagates. -/
def make_request (service : Service) (gene_id : String) :
    Except PyExc (String × String) :=
  match service gene_id with
  | .exc => .error .transport
  | .body t =>
    let lines := pySplit t '\n'
    match lines.get? 1 with
    | none => .ok ("None", "None")
    | some line1 =>
      let info := pySplit line1 '\t'
      let u_id := info.headD ""
      match info.get? 1 with
      | none => .ok ("None", "None")
      | some f1 =>
        let gene_name := (pySplit f1 ' ').headD ""
        if pyStrip gene_name = "" then .ok (u_id, "None")
        else .ok (u_id, gene_name)

/-- The prefix of a line up to and excluding its last dot character. -/
def dropAfterLastDot (l : List Char) : List Char :=
  ((l.reverse.dropWhile (fun c => !(c == '.'))).drop 1).reverse

/-- Model of the fallback-key derivation in get_info (source lines 158-159):
group 1 of re.search with pattern (.*)\. applied to acc.  The pattern dot
does not match a newline, so the search succeeds at the first line of acc
containing a literal dot, where the greedy group captures that line up to
its last dot; when no line contains a dot, re.search returns None and
group(1) raises an AttributeError, modelled by the none case. -/
def stripVersion (acc : String) : Option String :=
  (pySplit acc '\n').findSome? (fun line =>
    if line.data.contains '.' then
      some (String.mk (dropAfterLastDot line.data))
    else none)

/-- Model of get_info (source lines 148-162): one primary lookup, then, when
the sentinel "None" equals the accession itself or either returned field, a
single retry with the fallback key.  The returned triple always carries the
original accession.  The second component is the list of keys actually sent
over the network, in order. -/
def get_info (service : Service) (acc : String) :
    Except PyExc (String × String × String) × List String :=
  match make_request service acc with
  | .error e => (.error e, [acc])
  | .ok (u_id, gene_name) =>
    if acc = "None" ∨ u_id = "None" ∨ gene_name = "None" then
      match stripVersion acc with
      | none => (.error .attributeError, [acc])
      | some mod_acc =>
        match make_request service mod_acc with
        | .error e => (.error e, [acc, mod_acc])
        | .ok p => (.ok (acc, p.1, p.2), [acc, mod_acc])
    else (.ok (acc, u_id, gene_name), [acc])

/-- Model of class Protein (source lines 27-53): the gene id (the original
accession), the Uniprot id, the gene name, and the completeness status
computed by get_status at construction time. -/
structure Protein where
  gene_id : String
  prot_id : String
  gene_name : String
  complete : Bool
deriving DecidableEq

/-- Model of Protein.get_status (source lines 45-53): complete iff neither
the Uniprot id nor the gene name is the sentinel "None". -/
def Protein.get_status (prot_id gene_name : String) : Bool :=
  !(prot_id == "None" || gene_name == "None")

/-- Protein(*data) for a result triple (acc, u_id, gene_name) of get_info,
as built in the main loop (source lines 224 and 234). -/
def Protein.ofData (d : String × String × String) : Protein :=
  ⟨d.1, d.2.1, d.2.2, Protein.get_status d.2.1 d.2.2⟩

/-- Collecting the results iterated out of executor.map in submission order:
the first exception raised by a worker propagates when its slot of the
result iterator is reached. -/
def collectResults {α : Type} : List (Except PyExc α) → Except PyExc (List α)
  | [] => .ok []
  | .error e :: _ => .error e
  | .ok a :: rest =>
    match collectResults rest with
    | .error e => .error e
    | .ok as => .ok (a :: as)

/-- Model of spawn_threads (source lines 191-202).  The num_workers
parameter is accepted but never read: the executor is created with
max_workers equal to the length of the module-level pending pool, which
raises a ValueError when that pool is empty.  Every submitted lookup runs
and its network calls are logged even when an earlier one raised; outcomes
are collected in submission order. -/
def spawn_threads (service : Service) (acc_pool : List String)
    (num_workers : Nat) :
    Except PyExc (List (String × String × String)) × List String :=
  if acc_pool.isEmpty then (.error .valueError, [])
  else
    let results := acc_pool.map (get_info service)
    (collectResults (results.map (fun r => r.1)),
     results.foldr (fun r l => r.2 ++ l) [])

/-- Model of the batching loop of the main block (source lines 205-234):
keys are appended to the pool while its length is below the thread count;
when a further key arrives with the pool full, the pool is flushed through
spawn_threads and restarted with that key; after the loop the remaining
pool is always flushed once more.  An exception raised by a flush aborts
the run.  The second component is the list of keys sent over the network. -/
def runLoop (service : Service) (w : Nat) :
    List String → List String → List Protein →
    Except PyExc (List Protein) × List String
  | pool, [], proteins =>
    match spawn_threads service pool pool.length with
    | (.error e, log) => (.error e, log)
    | (.ok rs, log) => (.ok (proteins ++ rs.map Protein.ofData), log)
  | pool, k :: ks, proteins =>
    if pool.length < w then runLoop service w (pool ++ [k]) ks proteins
    else
      match spawn_threads service pool pool.length with
      | (.error e, log) => (.error e, log)
      | (.ok rs, log) =>
        let next := runLoop service w [k] ks (proteins ++ rs.map Protein.ofData)
        (next.1, log ++ next.2)

/-- The whole resolution pipeline of the main block, from the extracted key
sequence and the configured thread count to the final protein list (or the
exception that aborted the run) and the network-call log. -/
def run (service : Service) (keys : List String) (w : Nat) :
    Except PyExc (List Protein) × List String :=
  runLoop service w [] keys []

/-- The batch partition induced by the main loop: the successive pool
contents flushed through spawn_threads, in flush order. -/
def batchLoop (w : Nat) : List String → List String → List (List String)
  | pool, [] => [pool]
  | pool, k :: ks =>
    if pool.length < w then batchLoop w (pool ++ [k]) ks
    else pool :: batchLoop w [k] ks

/-- The batches the pipeline submits for a given key sequence and width. -/
def batches (keys : List String) (w : Nat) : List (List String) :=
  batchLoop w [] keys

/-- Sequential batch-by-batch execution: each batch is run to completion
through spawn_threads and its records appended before the next batch
starts; an exception aborts the remainder of the run. -/
def runBatches (service : Service) : List (List String) →
    Except PyExc (List Protein) × List String
  | [] => (.ok [], [])
  | b :: bs =>
    match spawn_threads service b b.length with
    | (.error e, log) => (.error e, log)
    | (.ok rs, log) =>
      let next := runBatches service bs
      (match next.1 with
       | .error e => .error e
       | .ok ps => .ok (rs.map Protein.ofData ++ ps), log ++ next.2)

/-- The records routed to the success file by dump_data (source line 106). -/
def resolvedOf (ps : List Protein) : List Protein :=
  ps.filter (fun p => p.complete)

/-- The records routed to the error file by dump_data (source line 106). -/
def unresolvedOf (ps : List Protein) : List Protein :=
  ps.filter (fun p => !p.complete)

/-- Concatenation of a list of lists, used to relate the batch partition to
the original key sequence. -/
def joinAll {α : Type} : List (List α) → List α
  | [] => []
  | l :: ls => l ++ joinAll ls

/-- The triple returned by a successful get_info always carries the original
accession in its first component. -/
theorem get_info_fst (service : Service) (a : String)
    (t : String × String × String) (h : (get_info service a).1 = .ok t) :
    t.1 = a := by
  unfold get_info at h
  split at h
  · simp at h
  · split at h
    · split at h
      · simp at h
      · split at h
        · simp at h
        · simp at h
          subst h
          rfl
    · simp at h
      subst h
      rfl

/-- Results collected from a pool of get_info calls keep, in order, the pool
keys as the first components of the returned triples. -/
theorem collect_get_info_keys (service : Service) :
    ∀ (pool : List String) (rs : List (String × String × String)),
      collectResults ((pool.map (get_info service)).map (fun r => r.1)) = .ok rs →
      rs.map (fun t => t.1) = pool := by
  intro pool
  induction pool with
  | nil =>
    intro rs h
    simp [collectResults] at h
    subst h
    rfl
  | cons a as ih =>
    intro rs h
    simp only [List.map_cons] at h
    cases hh : (get_info service a).1 with
    | error e =>
      rw [hh] at h
      simp [collectResults] at h
    | ok t =>
      rw [hh] at h
      unfold collectResults at h
      cases hr : collectResults ((as.map (get_info service)).map (fun r => r.1)) with
      | error e =>
        rw [hr] at h
        simp at h
      | ok ts =>
        rw [hr] at h
        simp at h
        subst h
        simp [get_info_fst service a t hh, ih ts hr]

/-- A successful spawn_threads returns one result triple per pool key, in
pool order, each carrying its own key. -/
theorem spawn_threads_ok_keys (service : Service) (pool : List String)
    (n : Nat) (rs : List (String × String × String)) (log : List String)
    (h : spawn_threads service pool n = (.ok rs, log)) :
    rs.map (fun t => t.1) = pool := by
  unfold spawn_threads at h
  split at h
  · simp at h
  · simp only [Prod.mk.injEq] at h
    exact collect_get_info_keys service pool rs h.1

/-- The main loop is extensionally the sequential batch-by-batch execution
of the pools it flushes: already accumulated proteins are prepended to the
batch results, and the network logs agree. -/
theorem runLoop_eq_runBatches (service : Service) (w : Nat) :
    ∀ (keys pool : List String) (proteins : List Protein),
      runLoop service w pool keys proteins =
        (Except.map (fun ps => proteins ++ ps)
          (runBatches service (batchLoop w pool keys)).1,
         (runBatches service (batchLoop w pool keys)).2) := by
  intro keys
  induction keys with
  | nil =>
    intro pool proteins
    simp only [runLoop, batchLoop, runBatches]
    cases h : spawn_threads service pool pool.length with
    | mk r log =>
      cases r with
      | error e => simp [Except.map]
      | ok rs => simp [Except.map]
  | cons k ks ih =>
    intro pool proteins
    simp only [runLoop, batchLoop]
    split
    · exact ih (pool ++ [k]) proteins
    · simp only [runBatches]
      cases h : spawn_threads service pool pool.length with
      | mk r log =>
        cases r with
        | error e => simp [Except.map]
        | ok rs =>
          simp only
          rw [ih [k] (proteins ++ rs.map Protein.ofData)]
          cases hr : (runBatches service (batchLoop w [k] ks)).1 with
          | error e => simp [Except.map]
          | ok ps => simp [Except.map]

/-- The pipeline equals sequential execution of its batch partition. -/
theorem run_eq_runBatches (service : Service) (keys : List String) (w : Nat) :
    run service keys w = runBatches service (batches keys w) := by
  unfold run batches
  rw [runLoop_eq_runBatches service w keys [] []]
  cases h : runBatches service (batchLoop w [] keys) with
  | mk r log =>
    cases r with
    | error e => simp [Except.map]
    | ok ps => simp [Except.map]

/-- Flattening the batch partition recovers the pool followed by the
remaining keys. -/
theorem batchLoop_join (w : Nat) :
    ∀ (keys pool : List String), joinAll (batchLoop w pool keys) = pool ++ keys := by
  intro keys
  induction keys with
  | nil => intro pool; simp [batchLoop, joinAll]
  | cons k ks ih =>
    intro pool
    simp only [batchLoop]
    split
    · rw [ih (pool ++ [k])]
      simp
    · simp only [joinAll]
      rw [ih [k]]
      simp

/-- A successful sequential batch execution yields one record per submitted
key, in submission order, each addressed by its own key. -/
theorem runBatches_ok_keys (service : Service) :
    ∀ (bs : List (List String)) (ps : List Protein) (log : List String),
      runBatches service bs = (.ok ps, log) →
      ps.map Protein.gene_id = joinAll bs := by
  intro bs
  induction bs with
  | nil =>
    intro ps log h
    simp [runBatches] at h
    simp [joinAll, h.1.symm]
  | cons b bs ih =>
    intro ps log h
    simp only [runBatches] at h
    cases hs : spawn_threads service b b.length with
    | mk r blog =>
      rw [hs] at h
      cases r with
      | error e => simp at h
      | ok rs =>
        simp only [Prod.mk.injEq] at h
        cases hr : (runBatches service bs).1 with
        | error e => rw [hr] at h; simp at h
        | ok ps2 =>
          rw [hr] at h
          simp at h
          obtain ⟨h1, _⟩ := h
          subst h1
          have hkeys := spawn_threads_ok_keys service b b.length rs blog hs
          have htail : ps2.map Protein.gene_id = joinAll bs := by
            have : runBatches service bs =
                ((runBatches service bs).1, (runBatches service bs).2) := rfl
            exact ih ps2 (runBatches service bs).2 (by rw [this, hr])
          simp only [joinAll, List.map_append]
          rw [htail, ← hkeys]
          simp [Protein.ofData, Function.comp]

/-- Any list splits into the records accepted and the records rejected by a
Boolean predicate, with lengths summing to the original length. -/
theorem length_filter_split {α : Type} (p : α → Bool) :
    ∀ l : List α,
      (l.filter p).length + (l.filter (fun a => !p a)).length = l.length := by
  intro l
  induction l with
  | nil => rfl
  | cons a as ih =>
    cases h : p a <;> simp [List.filter, h] <;> omega

/-- C1: for every non-empty input key sequence on which the pipeline runs to
completion, every input key yields exactly one record, in input order, so
the records routed to the resolved collection and to the unresolved
collection together count exactly the input keys, with no duplication and
no loss. -/
theorem c1_every_key_exactly_one_record (service : Service) (w : Nat)
    (keys : List String) (ps : List Protein) (log : List String)
    (hne : keys ≠ []) (h : run service keys w = (.ok ps, log)) :
    ps.map Protein.gene_id = keys ∧
    (resolvedOf ps).length + (unresolvedOf ps).length = keys.length := by
  rw [run_eq_runBatches] at h
  have hkeys : ps.map Protein.gene_id = joinAll (batches keys w) :=
    runBatches_ok_keys service (batches keys w) ps log h
  have hjoin : joinAll (batches keys w) = keys := by
    unfold batches
    rw [batchLoop_join]
    simp
  rw [hjoin] at hkeys
  refine ⟨hkeys, ?_⟩
  have hlen : ps.length = keys.length := by
    rw [← hkeys]
    simp
  rw [← hlen]
  simp only [resolvedOf, unresolvedOf]
  exact length_filter_split (fun p => p.complete) ps

/-- C1 witness: a one-key run resolving successfully satisfies the
accounting property. -/
theorem c1_witness :
    ([Protein.mk "A.1" "P1" "geneA" true]).map Protein.gene_id = ["A.1"] ∧
    (resolvedOf [Protein.mk "A.1" "P1" "geneA" true]).length +
      (unresolvedOf [Protein.mk "A.1" "P1" "geneA" true]).length =
      (["A.1"] : List String).length :=
  c1_every_key_exactly_one_record (fun _ => TransportResult.body "h\nP1\tgeneA")
    1 ["A.1"] [Protein.mk "A.1" "P1" "geneA" true] ["A.1"]
    (by simp) (by rfl)

/-- C5 (code bug): on the empty input sequence the pipeline issues no
network calls, but instead of returning an empty result set it raises a
ValueError while creating the final worker pool with zero workers. -/
theorem c5_empty_input_raises (service : Service) (w : Nat) :
    run service [] w = (.error .valueError, []) := rfl

/-- C6: with pool width 3 and seven input keys the scheduler partitions the
keys into the three consecutive batches shown, in that order, and the whole
pipeline is the sequential batch-by-batch execution of exactly those
batches, each flushed to completion before the next starts. -/
theorem c6_batch_partition (k1 k2 k3 k4 k5 k6 k7 : String) :
    batches [k1, k2, k3, k4, k5, k6, k7] 3 =
      [[k1, k2, k3], [k4, k5, k6], [k7]] ∧
    ∀ service : Service,
      run service [k1, k2, k3, k4, k5, k6, k7] 3 =
        runBatches service [[k1, k2, k3], [k4, k5, k6], [k7]] := by
  have hb : batches [k1, k2, k3, k4, k5, k6, k7] 3 =
      [[k1, k2, k3], [k4, k5, k6], [k7]] := rfl
  exact ⟨hb, fun service => by rw [run_eq_runBatches, hb]⟩

/-- C9: classification is the pure Protein construction: a resolved outcome,
with both fields distinct from the sentinel, always yields a complete
record, and the miss outcome, with both fields the sentinel, always yields
an incomplete record. -/
theorem c9_classify_deterministic :
    (∀ k e n : String, e ≠ "None" → n ≠ "None" →
      (Protein.ofData (k, e, n)).complete = true) ∧
    (∀ k : String, (Protein.ofData (k, "None", "None")).complete = false) := by
  constructor
  · intro k e n he hn
    simp [Protein.ofData, Protein.get_status, he, hn]
  · intro k
    simp [Protein.ofData, Protein.get_status]

/-- C9 witness: a concrete resolved outcome classifies as complete and a
concrete miss classifies as incomplete. -/
theorem c9_witness :
    (Protein.ofData ("K1", "P1", "geneA")).complete = true ∧
    (Protein.ofData ("K2", "None", "None")).complete = false :=
  ⟨c9_classify_deterministic.1 "K1" "P1" "geneA" (by decide) (by decide),
   c9_classify_deterministic.2 "K2"⟩

/-- C10: spawn_threads never reads its num_workers argument: for the same
pending pool and the same service responses, the returned outcome sequence
and network log are identical for any two values of the argument. -/
theorem c10_num_workers_ignored (service : Service) (acc_pool : List String)
    (n m : Nat) :
    spawn_threads service acc_pool n = spawn_threads service acc_pool m := rfl

/-- make_request reports an error exactly when the transport layer raised:
every received body, whatever its contents, is parsed without raising. -/
theorem make_request_error_iff (service : Service) (k : String) (e : PyExc) :
    make_request service k = .error e ↔ service k = .exc ∧ e = .transport := by
  constructor
  · intro hm
    unfold make_request at hm
    split at hm
    · next heq => simp at hm; exact ⟨heq, hm.symm⟩
    · dsimp only at hm
      split at hm
      · simp at hm
      · split at hm
        · simp at hm
        · split at hm <;> simp at hm
  · intro ⟨hs, he⟩
    subst he
    unfold make_request
    rw [hs]

/-- On a successful parse or parse miss the gene-name field returned by
make_request is never the empty string: misses carry the sentinel and an
all-whitespace primary token is normalised to the sentinel. -/
theorem make_request_name_ne_empty (service : Service) (k u g : String)
    (h : make_request service k = .ok (u, g)) : g ≠ "" := by
  unfold make_request at h
  split at h
  · simp at h
  · dsimp only at h
    split at h
    · simp at h
      exact h.2 ▸ (by decide)
    · split at h
      · simp at h
        exact h.2 ▸ (by decide)
      · split at h
        · simp at h
          exact h.2 ▸ (by decide)
        · next hcond =>
          simp only [Except.ok.injEq, Prod.mk.injEq] at h
          intro hg
          exact hcond (by rw [h.2, hg]; rfl)

/-- C2 counterexample: a transport-level failure is not mapped to the miss
sentinels; the exception propagates out of the single lookup and aborts the
one-key batch. -/
theorem c2_counterexample :
    make_request (fun _ => TransportResult.exc) "AF040646.1" =
      .error .transport ∧
    (spawn_threads (fun _ => TransportResult.exc) ["AF040646.1"] 1).1 =
      .error .transport := ⟨rfl, rfl⟩

/-- C2 amended: every parse-level failure on a received body, non-2xx error
pages included, degrades to a returned outcome without raising, but an
exception raised by the transport layer itself (timeout, connection
refused) propagates out of the lookup rather than being masked as a miss. -/
theorem c2_transport_vs_parse (service : Service) (k : String) :
    (service k = .exc → make_request service k = .error .transport) ∧
    (∀ b : String, service k = .body b →
      ∃ u g : String, make_request service k = .ok (u, g)) := by
  constructor
  · intro h
    unfold make_request
    rw [h]
  · intro b hb
    cases hm : make_request service k with
    | error e =>
      have := (make_request_error_iff service k e).1 hm
      rw [hb] at this
      exact absurd this.1 (by simp)
    | ok p => exact ⟨p.1, p.2, rfl⟩

/-- C2 witness: with a service that raises on one key and serves a body on
another, the first lookup propagates the exception and the second returns
an outcome. -/
theorem c2_witness :
    make_request
      (fun s => if s = "T1" then TransportResult.exc
                else TransportResult.body "hdr\nP9\tgeneZ") "T1" =
      .error .transport ∧
    ∃ u g : String,
      make_request
        (fun s => if s = "T1" then TransportResult.exc
                  else TransportResult.body "hdr\nP9\tgeneZ") "K9" =
        .ok (u, g) :=
  ⟨(c2_transport_vs_parse
      (fun s => if s = "T1" then TransportResult.exc
                else TransportResult.body "hdr\nP9\tgeneZ") "T1").1 rfl,
   (c2_transport_vs_parse
      (fun s => if s = "T1" then TransportResult.exc
                else TransportResult.body "hdr\nP9\tgeneZ") "K9").2
     "hdr\nP9\tgeneZ" rfl⟩

/-- C3 counterexample: for the key "None" the primary lookup succeeds, so
its outcome is not a miss, yet get_info still enters the retry branch
(because the key itself equals the sentinel) and fails while deriving the
fallback key instead of returning the first outcome. -/
theorem c3_counterexample :
    make_request (fun _ => TransportResult.body "h\nP1\tgeneA") "None" =
      .ok ("P1", "geneA") ∧
    get_info (fun _ => TransportResult.body "h\nP1\tgeneA") "None" =
      (.error .attributeError, ["None"]) := ⟨rfl, rfl⟩

/-- C3 amended: the retry is performed if and only if the sentinel "None"
equals the key itself or either field of the first outcome; when performed
and the fallback key is derivable, the second outcome is returned (readdressed
to the original key) and no third request is issued: the network log never
exceeds two keys. -/
theorem c3_retry_policy (service : Service) (acc u g m : String)
    (h1 : make_request service acc = .ok (u, g)) :
    ((acc = "None" ∨ u = "None" ∨ g = "None") → stripVersion acc = some m →
      get_info service acc =
        ((match make_request service m with
          | .error e => .error e
          | .ok p => .ok (acc, p.1, p.2)), [acc, m])) ∧
    (¬(acc = "None" ∨ u = "None" ∨ g = "None") →
      get_info service acc = (.ok (acc, u, g), [acc])) ∧
    (get_info service acc).2.length ≤ 2 := by
  refine ⟨?_, ?_, ?_⟩
  · intro hmiss hstrip
    simp only [get_info, h1]
    rw [if_pos hmiss, hstrip]
    cases hm2 : make_request service m with
    | error e => simp [hm2]
    | ok p => simp [hm2]
  · intro hmiss
    simp only [get_info, h1]
    rw [if_neg hmiss]
  · unfold get_info
    split
    · simp
    · split
      · split
        · simp
        · split
          · simp
          · simp
      · simp

/-- C3 witness: a key whose primary lookup misses is retried once with the
suffix-stripped key and the second outcome is returned, with exactly two
requests issued. -/
theorem c3_witness :
    get_info
      (fun s => if s = "A.1" then TransportResult.body "h"
                else TransportResult.body "h\nP1\tgeneA") "A.1" =
      (.ok ("A.1", "P1", "geneA"), ["A.1", "A"]) ∧
    (get_info
      (fun s => if s = "A.1" then TransportResult.body "h"
                else TransportResult.body "h\nP1\tgeneA") "A.1").2.length ≤ 2 := by
  have h := c3_retry_policy
    (fun s => if s = "A.1" then TransportResult.body "h"
              else TransportResult.body "h\nP1\tgeneA")
    "A.1" "None" "None" "A" (by rfl)
  exact ⟨(h.1 (Or.inr (Or.inl rfl)) (by rfl)).trans (by rfl), h.2.2⟩

/-- C4 counterexample: for the dot-free key "ABC" whose primary lookup
misses, resolve does not retry with the identical key and does not return
an outcome: the fallback derivation fails and an AttributeError escapes
after a single request. -/
theorem c4_counterexample :
    get_info (fun _ => TransportResult.body "h") "ABC" =
      (.error .attributeError, ["ABC"]) := rfl

/-- C4 amended: for every newline-free key containing no dot character
whose primary lookup triggers the retry condition, no fallback key exists:
re.search finds no match, group(1) raises an AttributeError, and the
resolve call fails after one single request instead of retrying. -/
theorem c4_no_dot_raises (service : Service) (acc u g : String)
    (hnl : pySplit acc '\n' = [acc])
    (hnd : acc.data.contains '.' = false)
    (h1 : make_request service acc = .ok (u, g))
    (hm : acc = "None" ∨ u = "None" ∨ g = "None") :
    get_info service acc = (.error .attributeError, [acc]) := by
  have hs : stripVersion acc = none := by
    unfold stripVersion
    rw [hnl]
    simp [hnd]
    simpa using hnd
  simp only [get_info, h1]
  rw [if_pos hm, hs]

/-- C4 witness: a concrete dot-free key with a missing lookup makes resolve
raise after its single request. -/
theorem c4_witness :
    get_info (fun _ => TransportResult.body "hdr") "XYZ" =
      (.error .attributeError, ["XYZ"]) :=
  c4_no_dot_raises (fun _ => TransportResult.body "hdr") "XYZ" "None" "None"
    (by rfl) (by rfl) (by rfl) (Or.inr (Or.inl rfl))

/-- C7: a primary response consisting of a single header line with no data
row parses to the sentinel miss; get_info then issues exactly one retry
with the suffix-stripped key, and when that retry also misses, the final
triple is addressed by the original key, building an incomplete record. -/
theorem c7_header_only_retry (service : Service) (k b m : String)
    (hb : service k = .body b)
    (hone : (pySplit b '\n').get? 1 = none)
    (hstrip : stripVersion k = some m)
    (hmiss2 : make_request service m = .ok ("None", "None")) :
    make_request service k = .ok ("None", "None") ∧
    get_info service k = (.ok (k, "None", "None"), [k, m]) ∧
    (Protein.ofData (k, "None", "None")).gene_id = k ∧
    (Protein.ofData (k, "None", "None")).complete = false := by
  have h1 : make_request service k = .ok ("None", "None") := by
    simp only [make_request, hb, hone]
  refine ⟨h1, ?_, rfl, rfl⟩
  simp only [get_info, h1]
  simp [hstrip, hmiss2]

/-- C7 witness: a header-only response for the key AB.1, with the stripped
key AB also missing, yields the incomplete record addressed by AB.1 after
exactly the two requests AB.1 and AB. -/
theorem c7_witness :
    make_request (fun _ => TransportResult.body "Header") "AB.1" =
      .ok ("None", "None") ∧
    get_info (fun _ => TransportResult.body "Header") "AB.1" =
      (.ok ("AB.1", "None", "None"), ["AB.1", "AB"]) ∧
    (Protein.ofData ("AB.1", "None", "None")).gene_id = "AB.1" ∧
    (Protein.ofData ("AB.1", "None", "None")).complete = false :=
  c7_header_only_retry (fun _ => TransportResult.body "Header")
    "AB.1" "Header" "AB" rfl rfl rfl rfl

/-- C8: on a successfully located data row and name field, the returned
display name is the first space-separated token of the name field, replaced
by the sentinel when that token trims to nothing, and no returned outcome
ever carries an empty-string display name. -/
theorem c8_first_token_display_name (service : Service)
    (k b line1 f1 : String)
    (hb : service k = .body b)
    (hl : (pySplit b '\n').get? 1 = some line1)
    (hf : (pySplit line1 '\t').get? 1 = some f1) :
    make_request service k =
      .ok ((pySplit line1 '\t').headD "",
        if pyStrip ((pySplit f1 ' ').headD "") = "" then "None"
        else (pySplit f1 ' ').headD "") ∧
    (∀ (s2 : Service) (k2 u g : String),
      make_request s2 k2 = .ok (u, g) → g ≠ "") := by
  constructor
  · simp only [make_request, hb, hl, hf]
    split
    · rfl
    · rfl
  · intro s2 k2 u g hmr
    exact make_request_name_ne_empty s2 k2 u g hmr

/-- C8 witness: a two-token name field is cut to its first token, which is
not the empty string. -/
theorem c8_witness :
    make_request (fun _ => TransportResult.body "hdr\nP2\tnameA nameB") "K" =
      .ok ("P2", "nameA") ∧ "nameA" ≠ "" := by
  have h := c8_first_token_display_name
    (fun _ => TransportResult.body "hdr\nP2\tnameA nameB")
    "K" "hdr\nP2\tnameA nameB" "P2\tnameA nameB" "nameA nameB" rfl rfl rfl
  exact ⟨h.1.trans (by rfl),
         h.2 (fun _ => TransportResult.body "hdr\nP2\tnameA nameB")
           "K" "P2" "nameA" (h.1.trans (by rfl))⟩
